import Mathlib

/-!
Verification of the behavior-tree engine in scripts/pr_behavior_tree/act.py.

The Python code drives each node through a generator (the method tick);
the external driver repeatedly calls next() on node.iterator, each call
yielding one ActStatus or raising StopIteration once the generator has
ended.  We embed this shallowly: every node carries its structure together
with the suspension state of its generator, and a fuel-indexed step
function advance models one call to next().  Fuel is consumed on every
internal transition, so advance is structurally recursive and fully
computable; Res.fuelOut marks that the given fuel was insufficient (a
result of Res.fuelOut for every fuel witnesses divergence of the Python
call).
-/

namespace PrBehaviorTree

/-- ActStatus from act.py: SUCCESS = 0, FAIL = 1, RUN = 2. -/
inductive ActStatus where
  | SUCCESS
  | FAIL
  | RUN
deriving DecidableEq, Repr

open ActStatus

/-- A node of the behavior tree, carrying both its static structure and the
suspension state of its tick generator.  Constructors mirror the classes of
act.py:

+ Wrap: wraps an external callable returning SUCCESS or FAIL.  We model the
  callable by the constant status fn it returns and count its invocations in
  calls (an external callable may observe how often it is called; the tree
  itself never reads calls).  done records that the single yield of
  Wrap.tick has happened.
+ Select: cur models the attribute self.current_child (as an index; None is
  none); idx is the position of the outer for-loop of Select.tick; done
  records that the generator has ended or returned.
+ Sequence: same fields.  In Sequence.tick the assignment is to a local
  variable current_child, not to self.current_child, so cur is never
  updated by advancing (faithful to the source).
+ Parallel: numFails is the generator-local num_fails; pos is the position
  of the inner for-loop during the current sweep.  Parallel.tick only
  yields terminal statuses, so between external calls pos is 0 and numFails
  is its value at generator creation; both are threaded through the state
  solely so that the internal while-loop can be expressed as re-dispatch.
+ Loop: numIter and iter model self.num_iter and self.iter (object
  attributes, hence untouched by the inherited Act.reset); cur models
  self.current_child, which Loop.tick never assigns (it writes a local
  variable); idx is the position of the per-pass for-loop.
+ IgnoreFail, Not: cur models self.current_child, never assigned by tick;
  idx the position of the outer for-loop. -/
inductive Node where
  | Wrap (fn : ActStatus) (calls : Nat) (done : Bool)
  | Select (cs : List Node) (cur : Option Nat) (idx : Nat) (done : Bool)
  | Sequence (cs : List Node) (cur : Option Nat) (idx : Nat) (done : Bool)
  | Parallel (cs : List Node) (numFails : Nat) (pos : Nat) (done : Bool)
  | Loop (cs : List Node) (numIter : Int) (iter : Int) (cur : Option Nat) (idx : Nat) (done : Bool)
  | IgnoreFail (cs : List Node) (cur : Option Nat) (idx : Nat) (done : Bool)
  | Not (cs : List Node) (cur : Option Nat) (idx : Nat) (done : Bool)

/-- Result of one call to next(node.iterator):
yielded s means the generator yielded status s; stop means the generator
had ended and the call raised StopIteration (the node is returned
unchanged); fuelOut means the modelling fuel ran out before the call
returned. -/
inductive Res where
  | yielded (s : ActStatus) (nd : Node)
  | stop (nd : Node)
  | fuelOut

mutual

/-- Act.reset from act.py: self.iterator = self.tick() recreates the
generator (here: generator-state fields return to their initial values)
and every child is reset recursively.  Select.reset and Sequence.reset
additionally clear self.current_child; Parallel, Loop, IgnoreFail and Not
inherit Act.reset unchanged, so Loop keeps self.iter (and the
current_child attribute of Loop, IgnoreFail and Not is not cleared --
it is never written anyway).  The invocation counter of a wrapped external
callable is outside the tree and survives a reset. -/
def resetNode : Node → Node
  | .Wrap fn calls _ => .Wrap fn calls false
  | .Select cs _ _ _ => .Select (resetList cs) none 0 false
  | .Sequence cs _ _ _ => .Sequence (resetList cs) none 0 false
  | .Parallel cs _ _ _ => .Parallel (resetList cs) 0 0 false
  | .Loop cs numIter iter cur _ _ => .Loop (resetList cs) numIter iter cur 0 false
  | .IgnoreFail cs cur _ _ => .IgnoreFail (resetList cs) cur 0 false
  | .Not cs cur _ _ => .Not (resetList cs) cur 0 false

/-- Pointwise reset of a list of children (for child in self.children:
child.reset()). -/
def resetList : List Node → List Node
  | [] => []
  | c :: cs => resetNode c :: resetList cs
end

/-- One call to next(node.iterator), i.e. one resumption of the tick
generator of act.py, with fuel bounding the internal work.  Each internal
transition of a generator (pulling one status from a child, moving the
loop of a composite to its next child, one iteration of the while-loop of
Parallel.tick or Loop.tick) consumes one unit of fuel and is encoded by
re-dispatching advance on the node with its suspension state updated. -/
def advance : Nat → Node → Res
  | 0, _ => .fuelOut
  | _ + 1, .Wrap fn calls done =>
      if done then .stop (.Wrap fn calls done)
      else .yielded fn (.Wrap fn (calls + 1) true)
  | n + 1, .Select cs cur idx done =>
      if done then .stop (.Select cs cur idx done)
      else if h : idx < cs.length then
        match advance n (cs.get ⟨idx, h⟩) with
        | .yielded .RUN c => .yielded .RUN (.Select (cs.set idx c) (some idx) idx false)
        | .yielded .FAIL c => .yielded .RUN (.Select (cs.set idx c) (some idx) idx false)
        | .yielded .SUCCESS c => .yielded .SUCCESS (.Select (cs.set idx c) (some idx) idx true)
        | .stop c => advance n (.Select (cs.set idx c) cur (idx + 1) false)
        | .fuelOut => .fuelOut
      else .yielded .FAIL (.Select cs cur idx true)
  | n + 1, .Sequence cs cur idx done =>
      if done then .stop (.Sequence cs cur idx done)
      else if h : idx < cs.length then
        match advance n (cs.get ⟨idx, h⟩) with
        | .yielded .RUN c => .yielded .RUN (.Sequence (cs.set idx c) cur idx false)
        | .yielded .FAIL c => .yielded .FAIL (.Sequence (cs.set idx c) cur idx true)
        | .yielded .SUCCESS c => .yielded .RUN (.Sequence (cs.set idx c) cur idx false)
        | .stop c => advance n (.Sequence (cs.set idx c) cur (idx + 1) false)
        | .fuelOut => .fuelOut
      else .yielded .SUCCESS (.Sequence cs cur idx true)
  | n + 1, .Parallel cs nf pos done =>
      if done then .stop (.Parallel cs nf pos done)
      else if pos = 0 ∧ cs.length ≤ nf then .yielded .FAIL (.Parallel cs nf pos true)
      else if h : pos < cs.length then
        match advance n (cs.get ⟨pos, h⟩) with
        | .yielded .SUCCESS c => .yielded .SUCCESS (.Parallel (cs.set pos c) nf pos true)
        | .yielded .FAIL c => advance n (.Parallel (cs.set pos c) (nf + 1) (pos + 1) false)
        | .yielded .RUN c => advance n (.Parallel (cs.set pos c) nf (pos + 1) false)
        | .stop c => advance n (.Parallel (cs.set pos c) nf 0 false)
        | .fuelOut => .fuelOut
      else advance n (.Parallel cs nf 0 false)
  | n + 1, .Loop cs numIter iter cur idx done =>
      if done then .stop (.Loop cs numIter iter cur idx done)
      else if idx = 0 ∧ numIter ≠ -1 ∧ numIter ≤ iter then
        .yielded .SUCCESS (.Loop cs numIter iter cur idx true)
      else if h : idx < cs.length then
        match advance n (cs.get ⟨idx, h⟩) with
        | .yielded .RUN c => .yielded .RUN (.Loop (cs.set idx c) numIter iter cur idx false)
        | .yielded .SUCCESS c => .yielded .RUN (.Loop (cs.set idx c) numIter iter cur idx false)
        | .yielded .FAIL c => .yielded .FAIL (.Loop (cs.set idx c) numIter iter cur idx true)
        | .stop c => advance n (.Loop (cs.set idx (resetNode c)) numIter iter cur (idx + 1) false)
        | .fuelOut => .fuelOut
      else advance n (.Loop cs numIter (iter + 1) cur 0 false)
  | n + 1, .IgnoreFail cs cur idx done =>
      if done then .stop (.IgnoreFail cs cur idx done)
      else if h : idx < cs.length then
        match advance n (cs.get ⟨idx, h⟩) with
        | .yielded .FAIL c => .yielded .SUCCESS (.IgnoreFail (cs.set idx c) cur idx false)
        | .yielded s c => .yielded s (.IgnoreFail (cs.set idx c) cur idx false)
        | .stop c => advance n (.IgnoreFail (cs.set idx c) cur (idx + 1) false)
        | .fuelOut => .fuelOut
      else .yielded .SUCCESS (.IgnoreFail cs cur idx true)
  | n + 1, .Not cs cur idx done =>
      if done then .stop (.Not cs cur idx done)
      else if h : idx < cs.length then
        match advance n (cs.get ⟨idx, h⟩) with
        | .yielded .FAIL c => .yielded .SUCCESS (.Not (cs.set idx c) cur idx false)
        | .yielded .SUCCESS c => .yielded .FAIL (.Not (cs.set idx c) cur idx false)
        | .yielded .RUN c => .yielded .RUN (.Not (cs.set idx c) cur idx false)
        | .stop c => advance n (.Not (cs.set idx c) cur (idx + 1) false)
        | .fuelOut => .fuelOut
      else .yielded .SUCCESS (.Not cs cur idx true)

/-- The external driver (for status in tree.iterator): perform up to
calls invocations of next(), each with the given fuel, collecting the
yielded statuses until StopIteration; also return the final node state. -/
def driveList : Nat → Nat → Node → List ActStatus × Node
  | 0, _, nd => ([], nd)
  | calls + 1, fuel, nd =>
      match advance fuel nd with
      | .yielded s nd2 =>
          match driveList calls fuel nd2 with
          | (rest, nd3) => (s :: rest, nd3)
      | .stop nd2 => ([], nd2)
      | .fuelOut => ([], nd)

/-- The done flag of the tick generator: true once the generator has ended,
so that the next call to next() raises StopIteration. -/
def isDone : Node → Bool
  | .Wrap _ _ done => done
  | .Select _ _ _ done => done
  | .Sequence _ _ _ done => done
  | .Parallel _ _ _ done => done
  | .Loop _ _ _ _ _ done => done
  | .IgnoreFail _ _ _ done => done
  | .Not _ _ _ done => done

/-- The attribute self.iter of a Loop node (0 for every other node). -/
def iterOf : Node → Int
  | .Loop _ _ iter _ _ _ => iter
  | _ => 0

/-- The children on which suspend() invokes child.suspend(): Parallel
forwards to all children; Select, Sequence, Loop, IgnoreFail and Not
forward to self.current_child when it is not None; Wrap inherits the empty
Act.suspend. -/
def suspendForwards : Node → List Node
  | .Wrap _ _ _ => []
  | .Select cs cur _ _ =>
      match cur with
      | none => []
      | some i => (cs.get? i).toList
  | .Sequence cs cur _ _ =>
      match cur with
      | none => []
      | some i => (cs.get? i).toList
  | .Parallel cs _ _ _ => cs
  | .Loop cs _ _ cur _ _ =>
      match cur with
      | none => []
      | some i => (cs.get? i).toList
  | .IgnoreFail cs cur _ _ =>
      match cur with
      | none => []
      | some i => (cs.get? i).toList
  | .Not cs cur _ _ =>
      match cur with
      | none => []
      | some i => (cs.get? i).toList

/-- The children on which resume() invokes child.resume(); in act.py every
resume method mirrors the corresponding suspend method. -/
def resumeForwards : Node → List Node
  | .Wrap _ _ _ => []
  | .Select cs cur _ _ =>
      match cur with
      | none => []
      | some i => (cs.get? i).toList
  | .Sequence cs cur _ _ =>
      match cur with
      | none => []
      | some i => (cs.get? i).toList
  | .Parallel cs _ _ _ => cs
  | .Loop cs _ _ cur _ _ =>
      match cur with
      | none => []
      | some i => (cs.get? i).toList
  | .IgnoreFail cs cur _ _ =>
      match cur with
      | none => []
      | some i => (cs.get? i).toList
  | .Not cs cur _ _ =>
      match cur with
      | none => []
      | some i => (cs.get? i).toList

/-- A Wrap node as built by Wrap.__init__ around a callable that constantly
returns fn. -/
def mkWrap (fn : ActStatus) : Node := .Wrap fn 0 false

/-- A leaf whose callable always returns SUCCESS. -/
def alwaysSucceed : Node := mkWrap .SUCCESS

/-- A leaf whose callable always returns FAIL. -/
def alwaysFail : Node := mkWrap .FAIL

/-- A Select node as built by Select.__init__ (current_child = None, fresh
generator). -/
def mkSelect (cs : List Node) : Node := .Select cs none 0 false

/-- A Sequence node as built by Sequence.__init__. -/
def mkSequence (cs : List Node) : Node := .Sequence cs none 0 false

/-- A Parallel node as built by Parallel.__init__ (the generator local
num_fails starts at 0). -/
def mkParallel (cs : List Node) : Node := .Parallel cs 0 0 false

/-- A Loop node as built by Loop.__init__: self.num_iter = numIter,
self.iter = 1, self.current_child = None. -/
def mkLoop (numIter : Int) (cs : List Node) : Node := .Loop cs numIter 1 none 0 false

/-- An IgnoreFail node as built by IgnoreFail.__init__. -/
def mkIgnoreFail (cs : List Node) : Node := .IgnoreFail cs none 0 false

/-- A Not node as built by Not.__init__. -/
def mkNot (cs : List Node) : Node := .Not cs none 0 false

/-- Model of the CPython semantics behind the signature
Act.__init__(self, children = [], name = "", ...): list objects live on a
heap and are identified by their index; the default value [] of the
children parameter is one list object, allocated once when the def
statement is evaluated.  heap0 is the heap after the class definition:
cell 0 holds the (empty) shared default list. -/
def heap0 : List (List Nat) := [[]]

/-- How the children parameter of Act.__init__ is supplied at a call
site: omitted (the shared default object is bound), None (the
children is None branch allocates a fresh list), or an explicit list
object. -/
inductive ChildrenArg where
  | omitted
  | noneArg
  | listArg (r : Nat)

/-- Act.__init__ restricted to the binding of self.children: returns the id
of the list object bound to self.children and the updated heap. -/
def actInitChildren : ChildrenArg → List (List Nat) → Nat × List (List Nat)
  | .omitted, h => (0, h)
  | .noneArg, h => (h.length, h ++ [[]])
  | .listArg r, h => (r, h)

/-- Act.add_child: self.children.append(child), mutating the list object
self.children refers to in place. -/
def add_child (h : List (List Nat)) (r : Nat) (c : Nat) : List (List Nat) :=
  h.set r (h.getD r [] ++ [c])

/-- The contents of the list object bound to a node's self.children. -/
def childrenContents (h : List (List Nat)) (r : Nat) : List Nat := h.getD r []

/-- The C2 scenario: a Parallel whose two children both eventually fail,
the first on its first step, the second (a Sequence over an
always-succeed and an always-fail leaf) on its second step. -/
def c2tree : Node := mkParallel [alwaysFail, mkSequence [alwaysSucceed, alwaysFail]]

/-- The configuration Parallel.tick reaches after its first sweep on
c2tree: the first child is exhausted (it failed, num_fails = 1), the
second is mid-run with its FAIL still pending. -/
def c2stuck : List Node :=
  [.Wrap .FAIL 1 true, .Sequence [.Wrap .SUCCESS 1 true, .Wrap .FAIL 0 false] none 0 false]

/-- The state of Loop(num_iter = n, [always-succeed]) between external
calls, after k completed passes (k also equals self.iter and the number of
invocations of the leaf callable; the leaf is exhausted, awaiting the
reset at the pass boundary). -/
def loopMid (n k : Nat) : Node :=
  .Loop [.Wrap .SUCCESS k true] (n : Int) (k : Int) none 0 false

/-- C10: a composite constructed with an empty child list yields a terminal
status on the very first advance() and is exhausted afterwards: FAIL for
Select and Parallel, SUCCESS for Sequence, IgnoreFail and Not. -/
theorem c10_empty_children_first_advance :
    advance 20 (mkSelect []) = .yielded .FAIL (.Select [] none 0 true)
  ∧ advance 20 (mkSequence []) = .yielded .SUCCESS (.Sequence [] none 0 true)
  ∧ advance 20 (mkParallel []) = .yielded .FAIL (.Parallel [] 0 0 true)
  ∧ advance 20 (mkIgnoreFail []) = .yielded .SUCCESS (.IgnoreFail [] none 0 true)
  ∧ advance 20 (mkNot []) = .yielded .SUCCESS (.Not [] none 0 true) :=
  ⟨rfl, rfl, rfl, rfl, rfl⟩

/-- C5: a Select over [always-fail, always-fail, always-succeed] leaves
yields RUN for each failed child and then terminates SUCCESS; over
[always-fail, always-fail] it terminates FAIL after both children have
failed, and in both cases the node ends exhausted. -/
theorem c5_selector_behavior :
    (driveList 10 20 (mkSelect [alwaysFail, alwaysFail, alwaysSucceed])).1
        = [.RUN, .RUN, .SUCCESS]
  ∧ isDone (driveList 10 20 (mkSelect [alwaysFail, alwaysFail, alwaysSucceed])).2 = true
  ∧ (driveList 10 20 (mkSelect [alwaysFail, alwaysFail])).1 = [.RUN, .RUN, .FAIL]
  ∧ isDone (driveList 10 20 (mkSelect [alwaysFail, alwaysFail])).2 = true :=
  ⟨rfl, rfl, rfl, rfl⟩

/-- C6: a Sequence over [always-succeed, always-succeed] terminates
SUCCESS; over [always-succeed, always-fail, always-succeed] it terminates
FAIL at the second child, and the third child's callable is never invoked
(its invocation counter stays 0 and its generator never yielded). -/
theorem c6_sequence_behavior :
    (driveList 10 20 (mkSequence [alwaysSucceed, alwaysSucceed])).1
        = [.RUN, .RUN, .SUCCESS]
  ∧ isDone (driveList 10 20 (mkSequence [alwaysSucceed, alwaysSucceed])).2 = true
  ∧ driveList 10 20 (mkSequence [alwaysSucceed, alwaysFail, alwaysSucceed])
        = ([.RUN, .FAIL],
           .Sequence [.Wrap .SUCCESS 1 true, .Wrap .FAIL 1 true, .Wrap .SUCCESS 0 false]
             none 1 true) :=
  ⟨rfl, rfl, rfl⟩

/-- C1: a single advance() on a Parallel node does not perform one bounded
sweep and return RUN; Parallel.tick loops over full sweeps internally until
a terminal condition holds.  With the single child
Sequence([always-succeed, always-succeed]), whose status stream is
RUN, RUN, SUCCESS, the very first external call already returns SUCCESS:
three sweeps ran inside one call (both leaf callables were invoked, the
child was pulled to exhaustion) and no call ever returns RUN. -/
theorem c1_parallel_single_call_multi_sweep :
    advance 20 (mkParallel [mkSequence [alwaysSucceed, alwaysSucceed]])
      = .yielded .SUCCESS
          (.Parallel [.Sequence [.Wrap .SUCCESS 1 true, .Wrap .SUCCESS 1 true] none 2 true]
            0 0 true)
  ∧ (driveList 10 20 (mkParallel [mkSequence [alwaysSucceed, alwaysSucceed]])).1
      = [.SUCCESS] :=
  ⟨rfl, rfl⟩

/-- C4: reset() is not fully restorative for Loop.  Loop does not override
Act.reset, so self.iter survives the reset: driving
Loop(num_iter = 3, [always-succeed]) to its terminal SUCCESS yields the
status sequence RUN, RUN, SUCCESS, but after reset() the pass counter is
still 3 and re-driving yields SUCCESS immediately, a different sequence. -/
theorem c4_reset_loop_counter_persists :
    (driveList 10 20 (mkLoop 3 [alwaysSucceed])).1 = [.RUN, .RUN, .SUCCESS]
  ∧ resetNode (driveList 10 20 (mkLoop 3 [alwaysSucceed])).2
      = .Loop [.Wrap .SUCCESS 2 false] 3 3 none 0 false
  ∧ iterOf (resetNode (driveList 10 20 (mkLoop 3 [alwaysSucceed])).2) = 3
  ∧ (driveList 10 20 (resetNode (driveList 10 20 (mkLoop 3 [alwaysSucceed])).2)).1
      = [.SUCCESS]
  ∧ ([.RUN, .RUN, .SUCCESS] : List ActStatus) ≠ [.SUCCESS] :=
  ⟨rfl, rfl, rfl, rfl, by decide⟩

/-- C7: suspend() and resume() on a Sequence or Loop that is mid-run do not
reach the child in flight.  Sequence.tick and Loop.tick assign the loop
variable to a local current_child instead of self.current_child, so after
an advance() that leaves the first child in flight the attribute is still
None and suspend()/resume() forward to no child at all. -/
theorem c7_suspend_resume_silent_noop :
    advance 20 (mkSequence [alwaysSucceed, alwaysSucceed])
      = .yielded .RUN (.Sequence [.Wrap .SUCCESS 1 true, alwaysSucceed] none 0 false)
  ∧ suspendForwards (.Sequence [.Wrap .SUCCESS 1 true, alwaysSucceed] none 0 false) = []
  ∧ resumeForwards (.Sequence [.Wrap .SUCCESS 1 true, alwaysSucceed] none 0 false) = []
  ∧ advance 20 (mkLoop 3 [alwaysSucceed, alwaysSucceed])
      = .yielded .RUN (.Loop [.Wrap .SUCCESS 1 true, alwaysSucceed] 3 1 none 0 false)
  ∧ suspendForwards (.Loop [.Wrap .SUCCESS 1 true, alwaysSucceed] 3 1 none 0 false) = []
  ∧ resumeForwards (.Loop [.Wrap .SUCCESS 1 true, alwaysSucceed] 3 1 none 0 false) = [] :=
  ⟨rfl, rfl, rfl, rfl, rfl, rfl⟩

/-- C9: two nodes constructed without an explicit children argument share
the single default list object of Act.__init__, so adding a child to the
first node makes it appear among the children of the second. -/
theorem c9_shared_default_children :
    (actInitChildren .omitted heap0).1 = 0
  ∧ (actInitChildren .omitted (actInitChildren .omitted heap0).2).1 = 0
  ∧ childrenContents
      (add_child (actInitChildren .omitted (actInitChildren .omitted heap0).2).2
        (actInitChildren .omitted heap0).1 7)
      (actInitChildren .omitted (actInitChildren .omitted heap0).2).1 = [7]
  ∧ ([7] : List Nat) ≠ [] :=
  ⟨rfl, rfl, rfl, by decide⟩

/-- C3 counterexample: Loop(num_iter = 3) over one always-succeed leaf does
not drive the child through 3 completed passes.  self.iter starts at 1 and
the termination test iter >= num_iter runs before each pass, so only 2
passes complete: after driving to SUCCESS the leaf callable has been
invoked exactly 2 times, not 3. -/
theorem c3_loop_exactly_three_passes_cex :
    driveList 10 20 (mkLoop 3 [alwaysSucceed])
      = ([.RUN, .RUN, .SUCCESS], .Loop [.Wrap .SUCCESS 2 false] 3 3 none 0 true)
  ∧ (2 : Nat) ≠ 3 :=
  ⟨rfl, by decide⟩

/-- C8 counterexample: IgnoreFail forwards every status of the child in
flight, so after producing the terminal status SUCCESS (first child
succeeded) a further advance() without reset() does not raise: it yields
another SUCCESS.  The stream of IgnoreFail([always-succeed, always-succeed])
is SUCCESS, SUCCESS, SUCCESS. -/
theorem c8_post_terminal_advance_cex :
    advance 20 (mkIgnoreFail [alwaysSucceed, alwaysSucceed])
      = .yielded .SUCCESS (.IgnoreFail [.Wrap .SUCCESS 1 true, alwaysSucceed] none 0 false)
  ∧ advance 20 (.IgnoreFail [.Wrap .SUCCESS 1 true, alwaysSucceed] none 0 false)
      = .yielded .SUCCESS
          (.IgnoreFail [.Wrap .SUCCESS 1 true, .Wrap .SUCCESS 1 true] none 1 false)
  ∧ (driveList 10 20 (mkIgnoreFail [alwaysSucceed, alwaysSucceed])).1
      = [.SUCCESS, .SUCCESS, .SUCCESS] :=
  ⟨rfl, rfl, rfl⟩

/-- C8 amended: once a node's status stream is exhausted (its tick
generator has ended), a further advance() without reset() yields no
status at all: the call raises StopIteration and the node is unchanged;
no stale or fabricated status is returned. -/
theorem c8_exhausted_stream_yields_nothing (nd : Node) (n : Nat)
    (h : isDone nd = true) : advance (n + 1) nd = .stop nd := by
  cases nd <;> simp [isDone] at h <;> subst h <;> simp [advance]

/-- Witness for c8_exhausted_stream_yields_nothing at an exhausted leaf. -/
theorem c8_exhausted_stream_yields_nothing_witness :
    isDone (.Wrap .SUCCESS 1 true) = true
  ∧ advance 1 (.Wrap .SUCCESS 1 true) = .stop (.Wrap .SUCCESS 1 true) :=
  ⟨rfl, c8_exhausted_stream_yields_nothing (.Wrap .SUCCESS 1 true) 0 rfl⟩


/-- From the post-first-sweep configuration, Parallel.tick never yields
again: every sweep starts at the exhausted first child, whose StopIteration
aborts the for-loop before the second child is reached, and the while-loop
retries forever with num_fails stuck at 1 < 2. -/
theorem advance_c2stuck_fuelOut : ∀ n : Nat, advance n (.Parallel c2stuck 1 0 false) = .fuelOut
  | 0 => rfl
  | 1 => rfl
  | n + 2 => advance_c2stuck_fuelOut (n + 1)

/-- C2: the first (and only) call to advance() on c2tree never returns,
whatever fuel it is given: after the first sweep (first child FAIL,
second child RUN) every further sweep aborts at the exhausted first child,
so the second child's eventual FAIL is never collected and fail count 1
never reaches the child count 2. -/
theorem c2_parallel_all_fail_diverges : ∀ n : Nat, advance n c2tree = .fuelOut
  | 0 => rfl
  | 1 => rfl
  | 2 => rfl
  | 3 => rfl
  | 4 => rfl
  | n + 5 => advance_c2stuck_fuelOut (n + 2)


/-- One external call on the mid-run Loop while iter + 1 is still below
num_iter: the exhausted leaf is reset, iter increments, the termination
test fails, the leaf runs its next pass and the Loop yields RUN. -/
theorem loop_step_run (n k : Nat) (h2 : k + 1 < n) :
    advance 10 (loopMid n k) = .yielded .RUN (loopMid n (k + 1)) := by
  have hle1 : ¬ ((n : Int) ≤ (k : Int)) := by omega
  have hle2 : ¬ ((n : Int) ≤ (k : Int) + 1) := by omega
  simp [loopMid, advance, resetNode, resetList, hle1, hle2]

/-- One external call on the mid-run Loop once iter + 1 reaches num_iter:
the exhausted leaf is reset, iter increments to num_iter and the
termination test iter >= num_iter fires, yielding the terminal SUCCESS
without starting another pass. -/
theorem loop_step_succeed (k : Nat) :
    advance 10 (loopMid (k + 1) k) = .yielded .SUCCESS
      (.Loop [.Wrap .SUCCESS k false] ((k : Int) + 1) ((k : Int) + 1) none 0 true) := by
  have hle1 : ¬ (((k : Nat) + 1 : Int)) ≤ (k : Int) := by omega
  have hle2 : (((k : Nat) + 1 : Int)) ≤ (k : Int) + 1 := by omega
  have hne : ¬ (((k : Nat) + 1 : Int)) = -1 := by omega
  simp [loopMid, advance, resetNode, resetList, hle1, hle2, hne]

/-- The first external call on a fresh Loop(num_iter = n >= 2,
[always-succeed]): the termination test 1 >= n fails, the leaf runs its
first pass and the Loop yields RUN. -/
theorem loop_first_step (n : Nat) (h : 2 ≤ n) :
    advance 10 (mkLoop (n : Int) [alwaysSucceed]) = .yielded .RUN (loopMid n 1) := by
  have hle1 : ¬ ((n : Int) ≤ 1) := by omega
  simp [mkLoop, alwaysSucceed, mkWrap, loopMid, advance, hle1]

/-- Driving the mid-run Loop to completion: from k completed passes with
num_iter = k + d + 1 it yields d more RUNs and then SUCCESS, for a total
of num_iter - 1 invocations of the leaf callable. -/
theorem loop_drive_mid (d : Nat) : ∀ n k : Nat, n = k + d + 1 →
    driveList (d + 1) 10 (loopMid n k)
      = (List.replicate d ActStatus.RUN ++ [ActStatus.SUCCESS],
         .Loop [.Wrap .SUCCESS (n - 1) false] (n : Int) (n : Int) none 0 true) := by
  induction d with
  | zero =>
      intro n k h
      subst h
      simp [driveList, loop_step_succeed k]
  | succ d ih =>
      intro n k h
      have hstep := loop_step_run n k (by omega)
      have h2 := ih n (k + 1) (by omega)
      have e : driveList (d + 1 + 1) 10 (loopMid n k)
          = (ActStatus.RUN :: (driveList (d + 1) 10 (loopMid n (k + 1))).1,
             (driveList (d + 1) 10 (loopMid n (k + 1))).2) := by
        conv_lhs => rw [driveList]
        rw [hstep]
      rw [e, h2]
      simp [List.replicate_succ]

/-- C3 amended: a bounded Loop(num_iter = n >= 1) over one always-succeed
leaf drives the child through exactly n - 1 completed passes, resetting
the child between passes (the callable's invocation counter ends at
n - 1, one invocation per pass), and returns SUCCESS exactly when the
internal counter self.iter, which starts at 1 and increments after each
completed pass, reaches num_iter. -/
theorem c3_loop_passes_amended (n : Nat) (h : 1 ≤ n) :
    driveList n 10 (mkLoop (n : Int) [alwaysSucceed])
      = (List.replicate (n - 1) ActStatus.RUN ++ [ActStatus.SUCCESS],
         .Loop [.Wrap .SUCCESS (n - 1) false] (n : Int) (n : Int) none 0 true) := by
  match n, h with
  | 1, _ => rfl
  | (m + 2), _ =>
      have h1 := loop_first_step (m + 2) (by omega)
      have h2 := loop_drive_mid m (m + 2) 1 (by omega)
      have e : driveList (m + 2) 10 (mkLoop ((m + 2 : Nat) : Int) [alwaysSucceed])
          = (ActStatus.RUN :: (driveList (m + 1) 10 (loopMid (m + 2) 1)).1,
             (driveList (m + 1) 10 (loopMid (m + 2) 1)).2) := by
        conv_lhs => rw [driveList]
        rw [h1]
      rw [e, h2]
      simp [List.replicate_succ]

/-- Witness for c3_loop_passes_amended at num_iter = 3: two RUNs, then
SUCCESS, with the leaf invoked exactly 2 times. -/
theorem c3_loop_passes_amended_witness :
    1 ≤ 3 ∧ driveList 3 10 (mkLoop ((3 : Nat) : Int) [alwaysSucceed])
      = (List.replicate (3 - 1) ActStatus.RUN ++ [ActStatus.SUCCESS],
         .Loop [.Wrap .SUCCESS (3 - 1) false] ((3 : Nat) : Int) ((3 : Nat) : Int) none 0 true) :=
  ⟨by decide, c3_loop_passes_amended 3 (by decide)⟩
